import Mathlib

set_option maxRecDepth 8192

/-!
Shallow embedding of the DeployGate upload GitHub action (`src/main.ts`).

The action's `run` function is modelled as a pure function over:
* an `Inputs` record (the raw action input strings, as returned by `core.getInput`),
* a `FileSys` oracle (`path.resolve` / `fs.statSync` behaviour),
* a network oracle `Nat → AttemptResult` giving the outcome of each HTTP attempt,
* a consumption oracle `Nat → Nat` giving how many bytes of the (single, shared)
  file read stream a failed attempt consumed before erroring.

Effects that the claims are about are reified in the returned trace:
the number of network calls, the backoff sleep durations, the stream position at
which each attempt's multipart body starts (the read stream is created once,
before the retry loop, exactly as in `main.ts` lines 91-92), the number of
`core.setFailed` calls (the host latches the process exit code to failure on the
first such call), and the terminal result (validation failure, upload failure,
or success with the serialized `results` output).
-/

namespace DeployGate

/-- `sanitizeInput` from `main.ts` lines 189-191: removes the characters matched
by the regex `[\u0000-\u001F\u007F-\u009F]` (C0 and C1 control characters). -/
def isControlChar (c : Char) : Bool :=
  decide (c.toNat ≤ 31) || (decide (127 ≤ c.toNat) && decide (c.toNat ≤ 159))

/-- `input.replace(/[\u0000-\u001F\u007F-\u009F]/g, '')`. -/
def sanitizeInput (input : String) : String :=
  ⟨input.data.filter (fun c => !isControlChar c)⟩

/-- The typed part of the `results` record of the upload response
(`main.ts` lines 10-30; only the fields the action reads are kept). -/
structure UploadResults where
  package_name : String
  os_name : String
  name : String
  version_code : String
  version_name : String
  revision : Nat
  file : String
  deriving DecidableEq

/-- The parsed upload response body (`main.ts` lines 7-31). -/
structure UploadResponse where
  error : Bool
  message : Option String
  results : Option UploadResults
  deriving DecidableEq

def quoteJson (s : String) : String :=
  "\"" ++ s ++ "\""

/-- `JSON.stringify` of a `results` record (field order as declared). -/
def serializeResults (r : UploadResults) : String :=
  "\x7b\"package_name\":" ++ quoteJson r.package_name ++
  ",\"os_name\":" ++ quoteJson r.os_name ++
  ",\"name\":" ++ quoteJson r.name ++
  ",\"version_code\":" ++ quoteJson r.version_code ++
  ",\"version_name\":" ++ quoteJson r.version_name ++
  ",\"revision\":" ++ toString r.revision ++
  ",\"file\":" ++ quoteJson r.file ++ "\x7d"

/-- `JSON.stringify(response?.results)` (`main.ts` line 176):
`JSON.stringify(undefined)` is `undefined`, modelled as `none`. -/
def jsonStringifyResults : Option UploadResults → Option String
  | none => none
  | some r => some (serializeResults r)

/-- Result of `fs.statSync`. -/
structure FileStat where
  isFile : Bool
  size : Nat

/-- The file-system oracle: `path.resolve` and `fs.existsSync`/`fs.statSync`
(`stat p = none` models a non-existent path). -/
structure FileSys where
  resolve : String → String
  stat : String → Option FileStat

/-- The raw action inputs, as returned by `core.getInput`. -/
structure Inputs where
  api_token : String
  owner_name : String
  file_path : String
  message : String
  distribution_key : String
  distribution_name : String
  release_note : String
  disable_notify : String
  deriving DecidableEq

/-- The validated parameters the upload request is built from
(`main.ts` lines 36-98). -/
structure ValidatedRequest where
  apiToken : String
  ownerName : String
  filePath : String
  fileSize : Nat
  message : String
  distributionKey : String
  distributionName : String
  releaseNote : String
  disableNotify : Bool
  deriving DecidableEq

/-- JavaScript's `toLowerCase`, modelled character-wise (ASCII lowering is all
the comparison against the literal `"true"` can distinguish). -/
def strToLower (s : String) : String :=
  ⟨s.data.map Char.toLower⟩

/-- `validateFilePath` from `main.ts` lines 196-206: resolve to an absolute
path, fail if it does not exist or is not a regular file. -/
def validateFilePath (fsys : FileSys) (filePath : String) : Except String String :=
  let resolvedPath := fsys.resolve filePath
  match fsys.stat resolvedPath with
  | none => .error ("File not found: " ++ resolvedPath)
  | some st =>
    if !st.isFile then .error ("Not a file: " ++ resolvedPath)
    else .ok resolvedPath

/-- The input-validation prefix of `run` (`main.ts` lines 36-98), up to and
excluding the network loop.  Note that the API token is checked raw — it is
never passed through `sanitizeInput` — while the owner name is sanitized
before the emptiness check. -/
def validateInputs (fsys : FileSys) (inp : Inputs) : Except String ValidatedRequest :=
  if inp.api_token = "" then .error "API token is required and cannot be empty"
  else
    if sanitizeInput inp.owner_name = "" then .error "Owner name is required and cannot be empty"
    else
      match validateFilePath fsys inp.file_path with
      | .error e => .error e
      | .ok filePath =>
        match fsys.stat filePath with
        | none => .error ("File not found: " ++ filePath)
        | some st =>
          if !st.isFile then .error ("Not a file: " ++ filePath)
          else if st.size = 0 then .error ("File is empty: " ++ filePath)
          else .ok {
            apiToken := inp.api_token,
            ownerName := sanitizeInput inp.owner_name,
            filePath := filePath,
            fileSize := st.size,
            message := sanitizeInput inp.message,
            distributionKey := sanitizeInput inp.distribution_key,
            distributionName := sanitizeInput inp.distribution_name,
            releaseNote := sanitizeInput inp.release_note,
            disableNotify := strToLower (sanitizeInput inp.disable_notify) = "true" }

/-- The outcome of one `request`/`body.json()` round as seen by the `try`
block: either the transport layer threw (connection error, timeout, malformed
body), or a status code and a parsed body were obtained. -/
inductive AttemptResult where
  | transportError (msg : String)
  | response (statusCode : Nat) (body : UploadResponse)
  deriving DecidableEq

/-- The error thrown by one attempt, tagged with which check threw it. -/
inductive AttemptFailure where
  | transportError (msg : String)
  | httpError (status : Nat) (msg : String)
  | applicationError (msg : String)
  deriving DecidableEq

/-- The `message` of the thrown `Error`. -/
def errMessage : AttemptFailure → String
  | .transportError m => m
  | .httpError _ m => m
  | .applicationError m => m

/-- Response interpretation inside the `try` block, `main.ts` lines 110-136:
a transport failure throws; `statusCode >= 400` throws an HTTP error built
from the status and the body's message; a body with `error: true` throws the
server-provided message (or `Upload failed`); otherwise the attempt succeeds
(`break`). -/
def classifyAttempt : AttemptResult → Except AttemptFailure UploadResponse
  | .transportError m => .error (.transportError m)
  | .response statusCode body =>
    if 400 ≤ statusCode then
      .error (.httpError statusCode
        ("HTTP Error: " ++ toString statusCode ++ " - " ++ body.message.getD "Unknown error"))
    else if body.error then
      .error (.applicationError (body.message.getD "Upload failed"))
    else .ok body

/-- `const maxRetries = 3` (`main.ts` line 103). -/
def maxRetries : Nat := 3

/-- The mutable state of the retry loop (`main.ts` lines 103-106), together
with the reified effect trace: network calls made, sleeps performed,
`core.setFailed` calls, the shared read stream's position, and the position at
which each attempt's file body started. -/
structure LoopState where
  retryCount : Nat
  lastError : Option AttemptFailure
  response : Option UploadResponse
  networkCalls : Nat
  sleeps : List Nat
  setFailedCount : Nat
  streamPos : Nat
  bodyStarts : List Nat
  deriving DecidableEq

/-- Loop state on entry: counters zeroed and the read stream freshly created at
position 0 by `fs.createReadStream(filePath)` — once, before the loop
(`main.ts` lines 91-92). -/
def initLoopState : LoopState :=
  { retryCount := 0, lastError := none, response := none, networkCalls := 0,
    sleeps := [], setFailedCount := 0, streamPos := 0, bodyStarts := [] }

/-- The `while (retryCount < maxRetries)` loop of `main.ts` lines 108-154,
with `fuel` an upper bound on the remaining iterations (the loop performs at
most `maxRetries` iterations, so `fuel = maxRetries` fully executes it).
Each iteration issues one network call whose file body starts at the shared
stream's current position.  On success the loop breaks with the response
recorded.  On failure the catch block performs two `core.setFailed` calls
(lines 139-140), increments `retryCount`, and — if attempts remain — sleeps
`2 ^ retryCount * 5000` ms (lines 145-152); a failed attempt leaves the shared
stream advanced by however many bytes the HTTP client consumed (capped at the
file size), and the stream is never re-created or rewound. -/
def uploadLoop (oracle : Nat → AttemptResult) (consumed : Nat → Nat) (fileSize : Nat) :
    Nat → LoopState → LoopState
  | 0, s => s
  | fuel + 1, s =>
    if s.retryCount < maxRetries then
      match classifyAttempt (oracle s.retryCount) with
      | .ok resp =>
        { s with bodyStarts := s.bodyStarts ++ [s.streamPos],
                 networkCalls := s.networkCalls + 1,
                 response := some resp }
      | .error e =>
        uploadLoop oracle consumed fileSize fuel
          { s with bodyStarts := s.bodyStarts ++ [s.streamPos],
                   networkCalls := s.networkCalls + 1,
                   retryCount := s.retryCount + 1,
                   lastError := some e,
                   setFailedCount := s.setFailedCount + 2,
                   streamPos := min fileSize (s.streamPos + consumed s.retryCount),
                   sleeps := if s.retryCount + 1 < maxRetries
                             then s.sleeps ++ [2 ^ (s.retryCount + 1) * 5000]
                             else s.sleeps }
    else s

/-- The run's terminal result: the outer catch reporting a validation error,
the outer catch reporting the rethrown last upload error (`main.ts` lines
156-158), or the success path (lines 160-176) with the value passed to
`core.setOutput('results', ...)`. -/
inductive RunResult where
  | validationFailed (msg : String)
  | uploadFailed (e : AttemptFailure)
  | success (output : Option String)
  deriving DecidableEq

/-- The observable effects of one `run` invocation. -/
structure RunTrace where
  networkCalls : Nat
  sleeps : List Nat
  bodyStarts : List Nat
  setFailedCount : Nat
  result : RunResult
  deriving DecidableEq

/-- `main.ts` lines 156-176: after the loop, rethrow the last error when all
attempts were used up (one more `core.setFailed` in the outer catch);
otherwise log success and set the `results` output to
`JSON.stringify(response?.results)`. -/
def afterLoopTrace (s : LoopState) : RunTrace :=
  match s.lastError with
  | some e =>
    if maxRetries ≤ s.retryCount then
      { networkCalls := s.networkCalls, sleeps := s.sleeps, bodyStarts := s.bodyStarts,
        setFailedCount := s.setFailedCount + 1, result := .uploadFailed e }
    else
      { networkCalls := s.networkCalls, sleeps := s.sleeps, bodyStarts := s.bodyStarts,
        setFailedCount := s.setFailedCount,
        result := .success (jsonStringifyResults (s.response.bind UploadResponse.results)) }
  | none =>
    { networkCalls := s.networkCalls, sleeps := s.sleeps, bodyStarts := s.bodyStarts,
      setFailedCount := s.setFailedCount,
      result := .success (jsonStringifyResults (s.response.bind UploadResponse.results)) }

/-- The whole `run` function of `main.ts` lines 33-184: validation, then the
retry loop over the single pre-created form data/stream, then the post-loop
rethrow-or-report.  A validation failure reaches the outer catch directly:
one `core.setFailed`, no network call, no sleep. -/
def run (fsys : FileSys) (inp : Inputs) (oracle : Nat → AttemptResult)
    (consumed : Nat → Nat) : RunTrace :=
  match validateInputs fsys inp with
  | .error msg =>
    { networkCalls := 0, sleeps := [], bodyStarts := [], setFailedCount := 1,
      result := .validationFailed msg }
  | .ok req => afterLoopTrace (uploadLoop oracle consumed req.fileSize maxRetries initLoopState)

/-- The host latches the process exit code to failure on the first
`core.setFailed` call; nothing in the action ever resets it. -/
def reportedAsFailed (t : RunTrace) : Bool :=
  t.setFailedCount != 0

/-! Closed forms for the loop states reached along the four possible shapes of
a run of the loop (success on attempt 1, 2 or 3, or exhaustion). -/

/-- Loop state after all three attempts fail, attempt 3 with `e2`. -/
def failState3 (e2 : AttemptFailure) (consumed : Nat → Nat) (fileSize : Nat) : LoopState :=
  { retryCount := 3, lastError := some e2, response := none, networkCalls := 3,
    sleeps := [10000, 20000], setFailedCount := 6,
    streamPos := min fileSize (min fileSize (min fileSize (0 + consumed 0) + consumed 1) + consumed 2),
    bodyStarts := [0, min fileSize (0 + consumed 0),
                   min fileSize (min fileSize (0 + consumed 0) + consumed 1)] }

/-- Loop state when attempt 1 succeeds with `resp`. -/
def okState1 (resp : UploadResponse) : LoopState :=
  { retryCount := 0, lastError := none, response := some resp, networkCalls := 1,
    sleeps := [], setFailedCount := 0, streamPos := 0, bodyStarts := [0] }

/-- Loop state when attempt 1 fails with `e0` and attempt 2 succeeds with `resp`. -/
def okState2 (e0 : AttemptFailure) (resp : UploadResponse) (consumed : Nat → Nat)
    (fileSize : Nat) : LoopState :=
  { retryCount := 1, lastError := some e0, response := some resp, networkCalls := 2,
    sleeps := [10000], setFailedCount := 2,
    streamPos := min fileSize (0 + consumed 0),
    bodyStarts := [0, min fileSize (0 + consumed 0)] }

/-- Loop state when attempts 1 and 2 fail (attempt 2 with `e1`) and attempt 3
succeeds with `resp`. -/
def okState3 (e1 : AttemptFailure) (resp : UploadResponse) (consumed : Nat → Nat)
    (fileSize : Nat) : LoopState :=
  { retryCount := 2, lastError := some e1, response := some resp, networkCalls := 3,
    sleeps := [10000, 20000], setFailedCount := 4,
    streamPos := min fileSize (min fileSize (0 + consumed 0) + consumed 1),
    bodyStarts := [0, min fileSize (0 + consumed 0),
                   min fileSize (min fileSize (0 + consumed 0) + consumed 1)] }

/-! The spec-modelled comment reconciliation (§4.4 of the design). -/

/-- Modelled from the spec: a review-thread comment, an identifier assigned by
the comment store plus a body text (the CommentReconciler component is not
present under `src/`; only the design document describes it). -/
structure ReviewComment where
  id : Nat
  body : String
  deriving DecidableEq

/-- Modelled from the spec: the single comment-store write the reconciliation
performs — update an existing comment's body in place, or create a new one. -/
inductive CommentAction where
  | update (id : Nat) (body : String)
  | create (body : String)
  deriving DecidableEq

/-- Does `needle` occur at the start of `haystack`? -/
def listStartsWith : List Char → List Char → Bool
  | [], _ => true
  | _ :: _, [] => false
  | a :: as, b :: bs => a == b && listStartsWith as bs

/-- Does `needle` occur contiguously anywhere in `haystack`? -/
def listContainsSeq (needle : List Char) : List Char → Bool
  | [] => needle.isEmpty
  | c :: rest => listStartsWith needle (c :: rest) || listContainsSeq needle rest

/-- JavaScript's `haystack.includes(needle)`. -/
def strContainsSub (haystack needle : String) : Bool :=
  listContainsSeq needle.data haystack.data

/-- Modelled from the spec: the reconciliation algorithm of §4.4 — "list all
comments on the thread; find the first whose body contains the fixed marker
substring. If found, update that comment's body in place ... If not found,
create a new comment." -/
def reconcileComment (marker newBody : String) (comments : List ReviewComment) : CommentAction :=
  match comments.find? (fun c => strContainsSub c.body marker) with
  | some c => .update c.id newBody
  | none => .create newBody

/-- Number of comment-store update calls the reconciliation performs. -/
def updateCalls : CommentAction → Nat
  | .update _ _ => 1
  | .create _ => 0

/-- Number of comment-store create calls the reconciliation performs. -/
def createCalls : CommentAction → Nat
  | .create _ => 1
  | .update _ _ => 0

/-! Concrete demonstration values for witnesses and counterexamples. -/

/-- A file system with a single 100-byte regular file at `app.apk`. -/
def demoFs : FileSys :=
  { resolve := fun p => p,
    stat := fun p => if p = "app.apk" then some { isFile := true, size := 100 } else none }

/-- A well-formed set of inputs for `demoFs`. -/
def demoInputs : Inputs :=
  { api_token := "token", owner_name := "owner", file_path := "app.apk",
    message := "", distribution_key := "", distribution_name := "",
    release_note := "", disable_notify := "" }

/-- The request `validateInputs demoFs demoInputs` produces. -/
def demoReq : ValidatedRequest :=
  { apiToken := "token", ownerName := "owner", filePath := "app.apk", fileSize := 100,
    message := "", distributionKey := "", distributionName := "",
    releaseNote := "", disableNotify := false }

/-- A successful upload's `results` record. -/
def demoResults : UploadResults :=
  { package_name := "com.example.app", os_name := "Android", name := "Example",
    version_code := "7", version_name := "1.2.0", revision := 5, file := "https://dl.example" }

/-- A success response body. -/
def okBody : UploadResponse :=
  { error := false, message := none, results := some demoResults }

/-- A success body with `error: false` but no `results` field. -/
def noResultsBody : UploadResponse :=
  { error := false, message := none, results := none }

/-- A body with HTTP success but the application error flag set. -/
def errBody : UploadResponse :=
  { error := true, message := some "insufficient permission", results := none }

/-- Every attempt succeeds. -/
def okOracle : Nat → AttemptResult :=
  fun _ => .response 200 okBody

/-- Every attempt succeeds, with a body that has no `results` field. -/
def okNoResultsOracle : Nat → AttemptResult :=
  fun _ => .response 200 noResultsBody

/-- Every attempt fails at the transport layer. -/
def failOracle : Nat → AttemptResult :=
  fun _ => .transportError "ETIMEDOUT"

/-- The first attempt fails at the transport layer, later ones succeed. -/
def failThenOkOracle : Nat → AttemptResult :=
  fun i => if i = 0 then .transportError "ETIMEDOUT" else .response 200 okBody

/-- The first two attempts time out, the third succeeds. -/
def twoFailOracle : Nat → AttemptResult :=
  fun i => if i ≤ 1 then .transportError "ETIMEDOUT" else .response 200 okBody

/-- Every failed attempt has consumed 40 bytes of the shared file stream. -/
def demoConsumed : Nat → Nat :=
  fun _ => 40

/-- Inputs whose API token consists of a single control character: non-empty
as supplied, empty after sanitization. -/
def ctrlTokenInputs : Inputs :=
  { demoInputs with api_token := "\x01" }

/-- Inputs whose owner name consists of a single control character. -/
def ctrlOwnerInputs : Inputs :=
  { demoInputs with owner_name := "\x07" }

/-- Review comments, the second of which carries the marker `MARK`. -/
def demoComments : List ReviewComment :=
  [{ id := 10, body := "unrelated" },
   { id := 11, body := "build status: MARK revision 5" },
   { id := 12, body := "MARK old" }]

/-! Helper lemmas about the retry loop. -/

/-- A full run of the loop when attempt 1 succeeds. -/
theorem loop_ok1 (oracle : Nat → AttemptResult) (consumed : Nat → Nat) (fileSize : Nat)
    (resp : UploadResponse) (h0 : classifyAttempt (oracle 0) = .ok resp) :
    uploadLoop oracle consumed fileSize maxRetries initLoopState = okState1 resp := by
  simp [uploadLoop, maxRetries, initLoopState, h0, okState1]

/-- A full run of the loop when attempt 1 fails and attempt 2 succeeds. -/
theorem loop_ok2 (oracle : Nat → AttemptResult) (consumed : Nat → Nat) (fileSize : Nat)
    (e0 : AttemptFailure) (resp : UploadResponse)
    (h0 : classifyAttempt (oracle 0) = .error e0)
    (h1 : classifyAttempt (oracle 1) = .ok resp) :
    uploadLoop oracle consumed fileSize maxRetries initLoopState =
      okState2 e0 resp consumed fileSize := by
  simp [uploadLoop, maxRetries, initLoopState, h0, h1, okState2]

/-- A full run of the loop when attempts 1 and 2 fail and attempt 3 succeeds. -/
theorem loop_ok3 (oracle : Nat → AttemptResult) (consumed : Nat → Nat) (fileSize : Nat)
    (e0 e1 : AttemptFailure) (resp : UploadResponse)
    (h0 : classifyAttempt (oracle 0) = .error e0)
    (h1 : classifyAttempt (oracle 1) = .error e1)
    (h2 : classifyAttempt (oracle 2) = .ok resp) :
    uploadLoop oracle consumed fileSize maxRetries initLoopState =
      okState3 e1 resp consumed fileSize := by
  simp [uploadLoop, maxRetries, initLoopState, h0, h1, h2, okState3]

/-- A full run of the loop when every attempt fails. -/
theorem loop_all_fail (oracle : Nat → AttemptResult) (consumed : Nat → Nat) (fileSize : Nat)
    (e0 e1 e2 : AttemptFailure)
    (h0 : classifyAttempt (oracle 0) = .error e0)
    (h1 : classifyAttempt (oracle 1) = .error e1)
    (h2 : classifyAttempt (oracle 2) = .error e2) :
    uploadLoop oracle consumed fileSize maxRetries initLoopState =
      failState3 e2 consumed fileSize := by
  simp [uploadLoop, maxRetries, initLoopState, h0, h1, h2, failState3]

/-- When validation passes, `run` is the loop followed by the post-loop
processing. -/
theorem run_ok_eq (fsys : FileSys) (inp : Inputs) (oracle : Nat → AttemptResult)
    (consumed : Nat → Nat) (req : ValidatedRequest)
    (hval : validateInputs fsys inp = .ok req) :
    run fsys inp oracle consumed =
      afterLoopTrace (uploadLoop oracle consumed req.fileSize maxRetries initLoopState) := by
  unfold run
  rw [hval]

/-- What must have held for validation to succeed. -/
theorem validateInputs_ok_facts (fsys : FileSys) (inp : Inputs) (req : ValidatedRequest)
    (hv : validateInputs fsys inp = .ok req) :
    inp.api_token ≠ "" ∧ sanitizeInput inp.owner_name ≠ "" ∧
    ∃ st, fsys.stat (fsys.resolve inp.file_path) = some st ∧
          st.isFile = true ∧ st.size ≠ 0 := by
  unfold validateInputs validateFilePath at hv
  by_cases ht : inp.api_token = ""
  · rw [if_pos ht] at hv; cases hv
  · rw [if_neg ht] at hv
    by_cases ho : sanitizeInput inp.owner_name = ""
    · rw [if_pos ho] at hv; cases hv
    · rw [if_neg ho] at hv
      cases hstat : fsys.stat (fsys.resolve inp.file_path) with
      | none => simp only [hstat] at hv; cases hv
      | some st =>
        by_cases hif : st.isFile = true
        · by_cases hsz : st.size = 0
          · simp [hstat, hif, hsz] at hv
          · exact ⟨ht, ho, st, rfl, hif, hsz⟩
        · simp [hstat, hif] at hv

/-! The claims. -/

/-- C7: for every input string, `sanitizeInput` removes exactly the C0/C1
control characters (U+0000–U+001F and U+007F–U+009F): the result contains no
control character, is a subsequence of the input (remaining characters
unchanged, in their original order), and keeps precisely the non-control
characters. -/
theorem sanitize_exact_characterization (s : String) :
    (sanitizeInput s).data =
      s.data.filter (fun c => decide (¬ (c.toNat ≤ 31 ∨ (127 ≤ c.toNat ∧ c.toNat ≤ 159)))) ∧
    (∀ c ∈ (sanitizeInput s).data, ¬ (c.toNat ≤ 31 ∨ (127 ≤ c.toNat ∧ c.toNat ≤ 159))) ∧
    List.Sublist (sanitizeInput s).data s.data := by
  have hdata : (sanitizeInput s).data = s.data.filter (fun c => !isControlChar c) := rfl
  have hpred : ∀ c : Char,
      (!isControlChar c) = decide (¬ (c.toNat ≤ 31 ∨ (127 ≤ c.toNat ∧ c.toNat ≤ 159))) := by
    intro c
    by_cases h1 : c.toNat ≤ 31 <;> by_cases h2 : 127 ≤ c.toNat <;> by_cases h3 : c.toNat ≤ 159 <;>
      simp [isControlChar, h1, h2, h3]
  refine ⟨?_, ?_, ?_⟩
  · rw [hdata]
    exact List.filter_congr (fun c _ => hpred c)
  · intro c hc
    rw [hdata] at hc
    have h2 := (List.mem_filter.mp hc).2
    rw [hpred c] at h2
    exact of_decide_eq_true h2
  · rw [hdata]
    exact List.filter_sublist s.data

/-- C7 witness: the characterization applied to the concrete string
`"a\x00b\x7Fc"`. -/
theorem sanitize_exact_characterization_witness :
    (sanitizeInput "a\x00b\x7Fc").data =
      "a\x00b\x7Fc".data.filter
        (fun c => decide (¬ (c.toNat ≤ 31 ∨ (127 ≤ c.toNat ∧ c.toNat ≤ 159)))) ∧
    (∀ c ∈ (sanitizeInput "a\x00b\x7Fc").data,
        ¬ (c.toNat ≤ 31 ∨ (127 ≤ c.toNat ∧ c.toNat ≤ 159))) ∧
    List.Sublist (sanitizeInput "a\x00b\x7Fc").data "a\x00b\x7Fc".data :=
  sanitize_exact_characterization "a\x00b\x7Fc"

/-- C10: `sanitizeInput` is idempotent. -/
theorem sanitize_idempotent (s : String) :
    sanitizeInput (sanitizeInput s) = sanitizeInput s := by
  apply String.ext
  show (s.data.filter (fun c => !isControlChar c)).filter (fun c => !isControlChar c)
      = s.data.filter (fun c => !isControlChar c)
  rw [List.filter_filter]
  simp

/-- C4: a response with HTTP status 200 whose parsed body has `error: true` is
classified as an application error carrying the server-provided message (with
the code's `Upload failed` fallback when absent), and never as a success. -/
theorem error_flag_classified_application_error (body : UploadResponse)
    (herr : body.error = true) :
    classifyAttempt (AttemptResult.response 200 body) =
      Except.error (AttemptFailure.applicationError (body.message.getD "Upload failed")) ∧
    ∀ r : UploadResponse, classifyAttempt (AttemptResult.response 200 body) ≠ Except.ok r := by
  have h : classifyAttempt (AttemptResult.response 200 body) =
      Except.error (AttemptFailure.applicationError (body.message.getD "Upload failed")) := by
    simp [classifyAttempt, herr]
  refine ⟨h, fun r hr => ?_⟩
  rw [h] at hr
  cases hr

/-- C4 witness: the classification applied to a concrete HTTP-200 body with
`error: true` and server message `insufficient permission`. -/
theorem error_flag_classified_application_error_witness :
    classifyAttempt (AttemptResult.response 200 errBody) =
      Except.error (AttemptFailure.applicationError "insufficient permission") ∧
    ∀ r : UploadResponse, classifyAttempt (AttemptResult.response 200 errBody) ≠ Except.ok r :=
  error_flag_classified_application_error errBody rfl

/-- C3: when every one of the three attempts fails, the run makes exactly
`maxRetries = 3` network calls and terminates with the last observed error as
its terminal outcome (no partial success). -/
theorem all_attempts_fail_terminal (fsys : FileSys) (inp : Inputs)
    (oracle : Nat → AttemptResult) (consumed : Nat → Nat) (req : ValidatedRequest)
    (e0 e1 e2 : AttemptFailure)
    (hval : validateInputs fsys inp = .ok req)
    (h0 : classifyAttempt (oracle 0) = .error e0)
    (h1 : classifyAttempt (oracle 1) = .error e1)
    (h2 : classifyAttempt (oracle 2) = .error e2) :
    (run fsys inp oracle consumed).networkCalls = 3 ∧
    (run fsys inp oracle consumed).result = RunResult.uploadFailed e2 := by
  rw [run_ok_eq fsys inp oracle consumed req hval,
      loop_all_fail oracle consumed req.fileSize e0 e1 e2 h0 h1 h2]
  exact ⟨rfl, rfl⟩

/-- C3 witness: three timeouts on the demonstration inputs. -/
theorem all_attempts_fail_terminal_witness :
    (run demoFs demoInputs failOracle demoConsumed).networkCalls = 3 ∧
    (run demoFs demoInputs failOracle demoConsumed).result =
      RunResult.uploadFailed (AttemptFailure.transportError "ETIMEDOUT") :=
  all_attempts_fail_terminal demoFs demoInputs failOracle demoConsumed demoReq
    (AttemptFailure.transportError "ETIMEDOUT") (AttemptFailure.transportError "ETIMEDOUT")
    (AttemptFailure.transportError "ETIMEDOUT") rfl rfl rfl rfl

/-- C5: a run whose first two attempts fail and whose third succeeds performs
exactly 3 network calls with exactly two backoff sleeps of `2^1 * 5000` and
`2^2 * 5000` milliseconds (10000 ms and 20000 ms), and ends in the success
path. -/
theorem backoff_schedule_two_failures_then_success (fsys : FileSys) (inp : Inputs)
    (oracle : Nat → AttemptResult) (consumed : Nat → Nat) (req : ValidatedRequest)
    (e0 e1 : AttemptFailure) (resp : UploadResponse)
    (hval : validateInputs fsys inp = .ok req)
    (h0 : classifyAttempt (oracle 0) = .error e0)
    (h1 : classifyAttempt (oracle 1) = .error e1)
    (h2 : classifyAttempt (oracle 2) = .ok resp) :
    (run fsys inp oracle consumed).networkCalls = 3 ∧
    (run fsys inp oracle consumed).sleeps = [2 ^ 1 * 5000, 2 ^ 2 * 5000] ∧
    (run fsys inp oracle consumed).sleeps = [10000, 20000] ∧
    (run fsys inp oracle consumed).result =
      RunResult.success (jsonStringifyResults resp.results) := by
  rw [run_ok_eq fsys inp oracle consumed req hval,
      loop_ok3 oracle consumed req.fileSize e0 e1 resp h0 h1 h2]
  exact ⟨rfl, rfl, rfl, rfl⟩

/-- C5 witness: two timeouts then a success on the demonstration inputs. -/
theorem backoff_schedule_two_failures_then_success_witness :
    (run demoFs demoInputs twoFailOracle demoConsumed).networkCalls = 3 ∧
    (run demoFs demoInputs twoFailOracle demoConsumed).sleeps = [2 ^ 1 * 5000, 2 ^ 2 * 5000] ∧
    (run demoFs demoInputs twoFailOracle demoConsumed).sleeps = [10000, 20000] ∧
    (run demoFs demoInputs twoFailOracle demoConsumed).result =
      RunResult.success (jsonStringifyResults okBody.results) :=
  backoff_schedule_two_failures_then_success demoFs demoInputs twoFailOracle demoConsumed
    demoReq (AttemptFailure.transportError "ETIMEDOUT")
    (AttemptFailure.transportError "ETIMEDOUT") okBody rfl rfl rfl rfl

/-- C9: when the (here: first and final) attempt returns an HTTP status below
400 with `error: false` but no `results` field, the run still takes the
success path, and the `results` output is set to `JSON.stringify(undefined)`
— the serialization of the absent record — rather than failing the run. -/
theorem missing_results_still_success (fsys : FileSys) (inp : Inputs)
    (oracle : Nat → AttemptResult) (consumed : Nat → Nat) (req : ValidatedRequest)
    (status : Nat) (body : UploadResponse)
    (hval : validateInputs fsys inp = .ok req)
    (horacle : oracle 0 = AttemptResult.response status body)
    (hst : status < 400) (herr : body.error = false) (hres : body.results = none) :
    (run fsys inp oracle consumed).result =
      RunResult.success (jsonStringifyResults none) := by
  have hok : classifyAttempt (oracle 0) = .ok body := by
    rw [horacle]
    simp [classifyAttempt, Nat.not_le.mpr hst, herr]
  rw [run_ok_eq fsys inp oracle consumed req hval,
      loop_ok1 oracle consumed req.fileSize body hok]
  simp [afterLoopTrace, okState1, hres]

/-- C9 witness: an HTTP 200 response with `error: false` and no `results`
record, on the demonstration inputs. -/
theorem missing_results_still_success_witness :
    (run demoFs demoInputs okNoResultsOracle demoConsumed).result =
      RunResult.success (jsonStringifyResults none) :=
  missing_results_still_success demoFs demoInputs okNoResultsOracle demoConsumed demoReq
    200 noResultsBody rfl rfl (by decide) rfl rfl

/-- C6 counterexample: an API token consisting of a single control character
is empty after sanitization, yet the run does not fail validation — it issues
a network call and succeeds, because the code checks the token raw and never
sanitizes it. -/
theorem unsanitized_token_counterexample :
    sanitizeInput ctrlTokenInputs.api_token = "" ∧
    (run demoFs ctrlTokenInputs okOracle demoConsumed).networkCalls = 1 ∧
    (run demoFs ctrlTokenInputs okOracle demoConsumed).result =
      RunResult.success (some (serializeResults demoResults)) := by
  exact ⟨rfl, rfl, rfl⟩

/-- C6 (amended): when the credential is empty as supplied (it is checked
raw), or the owner identifier is empty after sanitization, or the file path
does not resolve to an existing regular file of non-zero size, the run fails
with a validation error and issues zero network calls. -/
theorem validation_failure_no_network (fsys : FileSys) (inp : Inputs)
    (oracle : Nat → AttemptResult) (consumed : Nat → Nat)
    (h : inp.api_token = "" ∨ sanitizeInput inp.owner_name = "" ∨
         fsys.stat (fsys.resolve inp.file_path) = none ∨
         ∃ st, fsys.stat (fsys.resolve inp.file_path) = some st ∧
               (st.isFile = false ∨ st.size = 0)) :
    (run fsys inp oracle consumed).networkCalls = 0 ∧
    ∃ msg, (run fsys inp oracle consumed).result = RunResult.validationFailed msg := by
  cases hv : validateInputs fsys inp with
  | error msg =>
    unfold run
    rw [hv]
    exact ⟨rfl, msg, rfl⟩
  | ok req =>
    obtain ⟨ht, ho, st, hstat, hif, hsz⟩ := validateInputs_ok_facts fsys inp req hv
    rcases h with h | h | h | ⟨st2, hst2, hbad⟩
    · exact absurd h ht
    · exact absurd h ho
    · rw [h] at hstat; cases hstat
    · rw [hst2] at hstat
      injection hstat with hst'
      subst hst'
      rcases hbad with hb | hb
      · rw [hif] at hb; cases hb
      · exact absurd hb hsz

/-- C6 witness: an owner name consisting of a single control character fails
validation with zero network calls. -/
theorem validation_failure_no_network_witness :
    (run demoFs ctrlOwnerInputs okOracle demoConsumed).networkCalls = 0 ∧
    ∃ msg, (run demoFs ctrlOwnerInputs okOracle demoConsumed).result =
      RunResult.validationFailed msg :=
  validation_failure_no_network demoFs ctrlOwnerInputs okOracle demoConsumed
    (Or.inr (Or.inl rfl))

/-- C1 (code evaluated at the failing input): the form data and its file read
stream are created once, before the retry loop, and reused by every attempt;
after a first attempt that failed having consumed 40 of the 100 bytes, the
retried attempt's body starts at stream position 40 — it does not re-read the
file from the start, so the retried request body is not the complete file. -/
theorem retry_reuses_consumed_stream :
    (run demoFs demoInputs failThenOkOracle demoConsumed).bodyStarts = [0, 40] ∧
    ((run demoFs demoInputs failThenOkOracle demoConsumed).bodyStarts.all
      (fun b => b == 0)) = false := by
  exact ⟨rfl, rfl⟩

/-- C2 (code evaluated at the failing input): a run whose first attempt fails
and whose second attempt succeeds reaches the success path and sets the
`results` output, but `core.setFailed` was already called during the failed
attempt's catch block, so the host reports the run as failed to its caller. -/
theorem retry_success_still_reported_failed :
    (run demoFs demoInputs failThenOkOracle demoConsumed).result =
      RunResult.success (some (serializeResults demoResults)) ∧
    reportedAsFailed (run demoFs demoInputs failThenOkOracle demoConsumed) = true := by
  exact ⟨rfl, rfl⟩

/-- C8 (modelled from the spec): the reconciliation performs exactly one
update and no create when some listed comment's body contains the marker, and
exactly one create and no update when none does. -/
theorem reconcile_update_or_create (marker newBody : String) (comments : List ReviewComment) :
    ((∃ c ∈ comments, strContainsSub c.body marker = true) →
      updateCalls (reconcileComment marker newBody comments) = 1 ∧
      createCalls (reconcileComment marker newBody comments) = 0) ∧
    ((∀ c ∈ comments, strContainsSub c.body marker = false) →
      createCalls (reconcileComment marker newBody comments) = 1 ∧
      updateCalls (reconcileComment marker newBody comments) = 0) := by
  constructor
  · rintro ⟨c, hc, hm⟩
    have hsome : (comments.find? (fun c => strContainsSub c.body marker)).isSome = true := by
      rw [List.find?_isSome]
      exact ⟨c, hc, hm⟩
    obtain ⟨c0, hc0⟩ := Option.isSome_iff_exists.mp hsome
    simp [reconcileComment, hc0, updateCalls, createCalls]
  · intro hall
    have hnone : comments.find? (fun c => strContainsSub c.body marker) = none := by
      rw [List.find?_eq_none]
      intro x hx
      simp [hall x hx]
    simp [reconcileComment, hnone, updateCalls, createCalls]

/-- C8 witness: on a thread where the second comment carries the marker,
reconciliation performs one update and no create. -/
theorem reconcile_update_or_create_witness :
    updateCalls (reconcileComment "MARK" "new body" demoComments) = 1 ∧
    createCalls (reconcileComment "MARK" "new body" demoComments) = 0 :=
  (reconcile_update_or_create "MARK" "new body" demoComments).1
    ⟨{ id := 11, body := "build status: MARK revision 5" }, by decide, by decide⟩

end DeployGate
